import Mathlib

/-
Shallow embedding of the eventfund repository's ledger, approval and
statistics code.  The repository contains two schema variants:

* Variant A ("replit" variant): `shared/schema.ts` second half — contributions
  embed `contributorName`/`contributorPhone` directly, `eventManagers` rows
  carry a `role` column (`owner` / `co-manager`) and invitations are the
  `managerInvitations` table with a `usedAt` timestamp.  Storage is the first
  `DatabaseStorage` class of `server/storage.ts` (lines 70-432), routes are
  `src/unnamed/part_001`.

* Variant B ("session" variant): `shared/schema.ts` first half — a separate
  `contributors` table keyed by `(eventId, email)`, `eventManagers` rows with
  no role column, `managerInvites` with a `used` boolean, password reset
  tokens.  Storage is the second `DatabaseStorage` class of
  `server/storage.ts` (lines 522-790), routes are `src/unnamed/part_000`.

Monetary amounts are `decimal(10,2)` columns; SQL sums of such decimals are
exact, so they are embedded as integer numbers of cents (`Int`).  Timestamps
are embedded as `Nat` (milliseconds).  Database-generated uuids are passed in
as explicit parameters or defaulted, since their values never matter to the
claims.  Fallible operations return `Except`/route results; route handlers
return a response plus the post-state of the tables they touch.
-/

namespace EventFund

/-- Result of an Express route handler: an HTTP status code plus the JSON
message (for error responses) or payload marker. -/
inductive RouteResult (α : Type) where
  | ok : α → RouteResult α
  | err : Nat → String → RouteResult α
deriving Repr, DecidableEq

/-!
Model of the IEEE-754 binary64 ("double") arithmetic performed by
`getEventStatistics` (server/storage.ts line 405):
`(parseFloat(totalCollected) - parseFloat(totalExpenses)).toFixed(2)`.

`parseFloat` of the exact decimal string produced by the SQL `SUM` returns
the binary64 value nearest to the exact decimal (ties to even), JavaScript
`-` rounds the exact difference of its operands to the nearest binary64, and
`Number.prototype.toFixed(2)` picks the integer `n` minimising `|n / 100 -
x|` (the larger `n` on a tie), after reducing a negative argument to `"-"`
plus the conversion of `-x`.  The model below rounds to a 53-bit significand
with unbounded exponent, which agrees with binary64 everywhere in the
magnitude range reachable here (no overflow past `2^1024`, no subnormals
below `2^-1022` since all inputs are whole numbers of cents).
-/

/-- Base-2 integer logarithm of a positive rational: the unique `z` with
`2 ^ z ≤ q < 2 ^ (z + 1)`. -/
def ilog2Q (q : ℚ) : ℤ :=
  if q.den ≤ q.num.natAbs then (Nat.log 2 (q.num.natAbs / q.den) : ℤ)
  else -((Nat.log 2 ((q.den - 1) / q.num.natAbs) + 1 : ℕ) : ℤ)

/-- Round a rational to the nearest integer, ties to even. -/
def rne (x : ℚ) : ℤ :=
  let f := ⌊x⌋
  let r := x - (f : ℚ)
  if r < 1 / 2 then f
  else if 1 / 2 < r then f + 1
  else if f % 2 = 0 then f else f + 1

/-- Round a rational to the nearest binary64 value (53-bit significand,
round to nearest, ties to even; unbounded exponent). -/
def flround (q : ℚ) : ℚ :=
  if q = 0 then 0
  else (rne (q / (2 : ℚ) ^ (ilog2Q |q| - 52)) : ℚ) * (2 : ℚ) ^ (ilog2Q |q| - 52)

/-- The number of cents printed by `Number.prototype.toFixed(2)`: the integer
`n` minimising `|n / 100 - x|`, larger `n` on ties, computed on `-x` and
negated when `x < 0` (ES `Number.prototype.toFixed` steps 9-10). -/
def toFixed2 (x : ℚ) : ℤ :=
  if x < 0 then -⌊(-x) * 100 + 1 / 2⌋ else ⌊x * 100 + 1 / 2⌋

/-- The full float pipeline of server/storage.ts line 405, on exact cent
inputs: `toFixed(2)` of the binary64 difference of the two parsed totals,
returned as a number of cents. -/
def remainingFundsFloat (collectedCents expensesCents : ℤ) : ℤ :=
  toFixed2 (flround (flround ((collectedCents : ℚ) / 100) - flround ((expensesCents : ℚ) / 100)))

namespace VarA

/-- Row of the variant-A `contributions` table (shared/schema.ts lines
353-367): contributor identity is embedded in the row, with approval
metadata and a rejection reason. -/
structure Contribution where
  id : String
  eventId : String
  contributorName : String
  contributorPhone : Option String := none
  amount : Int
  paymentMethod : String := "cash"
  paymentDetails : Option String := none
  comments : Option String := none
  status : String := "pending"
  approvedBy : Option String := none
  approvedAt : Option Nat := none
  rejectionReason : Option String := none
  createdAt : Nat := 0
deriving Repr, DecidableEq

/-- Row of the variant-A `expenses` table (shared/schema.ts lines 370-382). -/
structure Expense where
  id : String
  eventId : String
  title : String
  description : Option String := none
  amount : Int
  category : Option String := none
  date : Nat := 0
  receiptUrl : Option String := none
  addedBy : String
  createdAt : Nat := 0
  updatedAt : Nat := 0
deriving Repr, DecidableEq

/-- Row of the variant-A `events` table (shared/schema.ts lines 316-328). -/
structure Event where
  id : String
  title : String
  description : Option String := none
  date : Nat := 0
  time : Option String := none
  venue : String
  accessCode : String
  contributionInstructions : Option String := none
  createdBy : String
  createdAt : Nat := 0
  updatedAt : Nat := 0
deriving Repr, DecidableEq

/-- Row of the variant-A `eventManagers` table (shared/schema.ts lines
331-338): carries a `role` column, `owner` or `co-manager`. -/
structure EventManager where
  id : String := ""
  eventId : String
  userId : String
  role : String := "co-manager"
  invitedBy : Option String := none
  createdAt : Nat := 0
deriving Repr, DecidableEq

/-- Row of the variant-A `managerInvitations` table (shared/schema.ts lines
341-350): single-use token with `expiresAt` and an optional `usedAt`. -/
structure ManagerInvitation where
  id : String := ""
  eventId : String
  email : String
  inviteToken : String
  invitedBy : String
  expiresAt : Nat
  usedAt : Option Nat := none
  createdAt : Nat := 0
deriving Repr, DecidableEq

/-- Field update performed by `DatabaseStorage.approveContribution`
(server/storage.ts lines 230-241): sets status, approver and approval time.
The SQL `where` clause matches on the row id only — there is no check of the
current status. -/
def approveUpdate (approverId : String) (now : Nat) (c : Contribution) : Contribution :=
  { c with status := "approved", approvedBy := some approverId, approvedAt := some now }

/-- `DatabaseStorage.approveContribution`: unconditional update of the row
with the given id (server/storage.ts lines 230-241). -/
def approveContribution (contributionId approverId : String) (now : Nat)
    (db : List Contribution) : List Contribution :=
  db.map fun c => if c.id = contributionId then approveUpdate approverId now c else c

/-- Field update performed by `DatabaseStorage.rejectContribution`
(server/storage.ts lines 243-253): sets only `status` and `rejectionReason`;
no approver, rejection time or rejecting principal is recorded. -/
def rejectUpdate (reason : String) (c : Contribution) : Contribution :=
  { c with status := "rejected", rejectionReason := some reason }

/-- `DatabaseStorage.rejectContribution`: unconditional update of the row
with the given id (server/storage.ts lines 243-253). -/
def rejectContribution (contributionId reason : String)
    (db : List Contribution) : List Contribution :=
  db.map fun c => if c.id = contributionId then rejectUpdate reason c else c

/-- Return value of `DatabaseStorage.getEventStatistics` (server/storage.ts
lines 362-414).  The monetary fields are numbers of cents; the code returns
them as decimal strings. -/
structure Statistics where
  totalCollected : Int
  totalExpenses : Int
  contributorsCount : Nat
  pendingRequests : Nat
  remainingFunds : Int
deriving Repr, DecidableEq

/-- `DatabaseStorage.getEventStatistics` (server/storage.ts lines 362-414):
one query sums amount and counts rows over contributions with the given
event id and status `approved`, one counts rows with status `pending`, one
sums expense amounts for the event; `remainingFunds` is
`(parseFloat(totalCollected) - parseFloat(totalExpenses)).toFixed(2)`.
`contributorsCount` is the `count` column of the approved-contributions
query, i.e. the number of approved contribution rows. -/
def getEventStatistics (eventId : String) (contribs : List Contribution)
    (exps : List Expense) : Statistics :=
  let approved := contribs.filter fun c => c.eventId = eventId ∧ c.status = "approved"
  let pending := contribs.filter fun c => c.eventId = eventId ∧ c.status = "pending"
  let eventExpenses := exps.filter fun e => e.eventId = eventId
  let totalCollected := (approved.map (·.amount)).sum
  let totalExpenses := (eventExpenses.map (·.amount)).sum
  { totalCollected := totalCollected
    totalExpenses := totalExpenses
    contributorsCount := approved.length
    pendingRequests := pending.length
    remainingFunds := remainingFundsFloat totalCollected totalExpenses }

/-- Handler `PUT /api/contributions/:id/approve` (src/unnamed/part_001 lines
221-232): after `isAuthenticated`, it calls `storage.approveContribution`
directly — there is no check that the session user manages the
contribution's event, and no check of the current status.  Returns the
updated row and the post-state of the contributions table. -/
def approveContributionRoute (contribs : List Contribution)
    (sessionUserId contributionId : String) (now : Nat) :
    RouteResult (Option Contribution) × List Contribution :=
  let db := approveContribution contributionId sessionUserId now contribs
  (.ok (db.find? fun c => c.id = contributionId), db)

/-- Handler `PUT /api/contributions/:id/reject` (src/unnamed/part_001 lines
234-245): after `isAuthenticated`, it calls `storage.rejectContribution`
directly — no manager check, no status check. -/
def rejectContributionRoute (contribs : List Contribution)
    (contributionId reason : String) :
    RouteResult (Option Contribution) × List Contribution :=
  let db := rejectContribution contributionId reason contribs
  (.ok (db.find? fun c => c.id = contributionId), db)

/-- Input accepted by the variant-A `insertContributionSchema`
(shared/schema.ts lines 467-474): every column except id, status, approval
metadata, rejection reason and createdAt.  The `amount` decimal gets no
positivity (or any other) refinement. -/
structure ContributionInput where
  eventId : String
  contributorName : String
  contributorPhone : Option String := none
  amount : Int
  paymentMethod : String := "cash"
  paymentDetails : Option String := none
  comments : Option String := none
deriving Repr, DecidableEq

/-- Handler `POST /api/events/:id/contributions` (src/unnamed/part_001 lines
192-206): parses the body with `insertContributionSchema` and inserts via
`storage.createContribution`.  No event lookup and no amount validation are
performed; the only thing standing between an absent event and the insert is
the `event_id` foreign key, whose violation surfaces as the catch-all 500
response.  The new row takes the schema defaults `status = pending`,
`approvedBy/approvedAt/rejectionReason = null`. -/
def createContributionRoute (eventsDb : List Event) (contribs : List Contribution)
    (input : ContributionInput) (newId : String) (now : Nat) :
    RouteResult Contribution × List Contribution :=
  if eventsDb.any fun e => e.id = input.eventId then
    let row : Contribution :=
      { id := newId, eventId := input.eventId, contributorName := input.contributorName
        contributorPhone := input.contributorPhone, amount := input.amount
        paymentMethod := input.paymentMethod, paymentDetails := input.paymentDetails
        comments := input.comments, status := "pending", approvedBy := none
        approvedAt := none, rejectionReason := none, createdAt := now }
    (.ok row, contribs ++ [row])
  else
    (.err 500 "Failed to create contribution", contribs)

/-- Handler `POST /api/events` (src/unnamed/part_001 lines 78-94) together
with `DatabaseStorage.createEvent` (server/storage.ts lines 93-110).  The
access code is the client-supplied one if present, otherwise a single
`Math.random().toString(36).substring(2, 8).toUpperCase()` draw (modelled as
the `rand` argument) — there is no collision check and no retry; a duplicate
code violates the `access_code` unique constraint, the insert throws, and
the catch-all returns 500 with nothing created.  On success the creator is
also inserted into `eventManagers` with role `owner`. -/
def createEventRoute (eventsDb : List Event) (managersDb : List EventManager)
    (title venue : String) (accessCodeInput : Option String) (rand : String)
    (sessionUserId newEventId newManagerId : String) (now : Nat) :
    RouteResult Event × List Event × List EventManager :=
  let accessCode := accessCodeInput.getD rand
  if eventsDb.any fun e => e.accessCode = accessCode then
    (.err 500 "Failed to create event", eventsDb, managersDb)
  else
    let ev : Event :=
      { id := newEventId, title := title, venue := venue, accessCode := accessCode
        createdBy := sessionUserId, createdAt := now, updatedAt := now }
    (.ok ev, eventsDb ++ [ev],
      managersDb ++ [{ id := newManagerId, eventId := newEventId, userId := sessionUserId
                       role := "owner", createdAt := now }])

/-- Tables touched by `DatabaseStorage.useManagerInvitation`. -/
structure InviteDb where
  invitations : List ManagerInvitation
  eventManagers : List EventManager
deriving Repr, DecidableEq

/-- `DatabaseStorage.useManagerInvitation` (server/storage.ts lines
316-335): looks the invitation up by token; if it is absent, already used,
or past expiry it throws the single error string
`Invalid or expired invitation` — the three failure causes are not
distinguished.  Otherwise it sets `usedAt = now` and inserts a `co-manager`
row into `eventManagers`. -/
def useManagerInvitation (token userId : String) (now : Nat) (db : InviteDb) :
    Except String InviteDb :=
  match db.invitations.find? fun i => i.inviteToken = token with
  | none => .error "Invalid or expired invitation"
  | some invitation =>
    if invitation.usedAt.isSome then .error "Invalid or expired invitation"
    else if invitation.expiresAt < now then .error "Invalid or expired invitation"
    else
      .ok { invitations := db.invitations.map fun i =>
              if i.inviteToken = token then { i with usedAt := some now } else i
            eventManagers := db.eventManagers ++
              [{ eventId := invitation.eventId, userId := userId, role := "co-manager"
                 invitedBy := some invitation.invitedBy, createdAt := now }] }

/-- Handler `POST /api/invitations/:token/accept` (src/unnamed/part_001
lines 401-412): forwards to `useManagerInvitation`; any thrown error becomes
the catch-all 500 response with the tables untouched. -/
def acceptInvitationRoute (db : InviteDb) (sessionUserId token : String) (now : Nat) :
    RouteResult Unit × InviteDb :=
  match useManagerInvitation token sessionUserId now db with
  | .ok db' => (.ok (), db')
  | .error _ => (.err 500 "Failed to accept invitation", db)

/-- Sequential replay of a list of `(userId, time)` redemption attempts of
one fixed token: each attempt that throws leaves the tables unchanged, as in
`POST /api/invitations/:token/accept`. -/
def redeemAll (token : String) (attempts : List (String × Nat)) (db : InviteDb) : InviteDb :=
  attempts.foldl (fun s a => (acceptInvitationRoute s a.1 token a.2).2) db

/-- Handler `POST /api/auth/forgot-password` (src/unnamed/part_001 lines
43-64): never consults the user table (the `usersDb` argument is unused,
exactly as the handler touches no storage); it 400s on a missing email and
otherwise reports only whether the email-sending collaborator succeeded. -/
def forgotPasswordRoute (_usersDb : List String) (email : Option String)
    (emailSendOk : Bool) : RouteResult String :=
  match email with
  | none => .err 400 "Email is required"
  | some _ =>
    if emailSendOk then .ok "Password reset email sent successfully"
    else .err 500 "Failed to send password reset email"

end VarA

namespace VarB

/-- Row of the variant-B `users` table (shared/schema.ts lines 18-26). -/
structure User where
  id : String
  email : String
  password : String
  firstName : Option String := none
  lastName : Option String := none
  createdAt : Nat := 0
  updatedAt : Nat := 0
deriving Repr, DecidableEq

/-- Row of the variant-B `events` table (shared/schema.ts lines 29-39). -/
structure Event where
  id : String
  title : String
  date : Nat := 0
  venue : String
  accessCode : String
  targetAmount : Option Int := none
  createdById : String
  createdAt : Nat := 0
  updatedAt : Nat := 0
deriving Repr, DecidableEq

/-- Row of the variant-B `eventManagers` junction table (shared/schema.ts
lines 42-48): only `(eventId, userId, createdAt)`, with the pair as primary
key — this variant has no role column at all. -/
structure EventManager where
  eventId : String
  userId : String
  createdAt : Nat := 0
deriving Repr, DecidableEq

/-- Row of the variant-B `contributors` table (shared/schema.ts lines
51-58): contributor identity deduplicated per event by email. -/
structure Contributor where
  id : String
  name : String
  email : String
  phone : Option String := none
  eventId : String
  createdAt : Nat := 0
deriving Repr, DecidableEq

/-- Row of the variant-B `contributions` table (shared/schema.ts lines
61-71): references a `contributors` row; `status` defaults to `pending`;
`approvedById` records whoever last set the status. -/
structure Contribution where
  id : String
  amount : Int
  message : Option String := none
  status : String := "pending"
  contributorId : String
  eventId : String
  approvedById : Option String := none
  createdAt : Nat := 0
  updatedAt : Nat := 0
deriving Repr, DecidableEq

/-- Row of the variant-B `expenses` table (shared/schema.ts lines 74-82). -/
structure Expense where
  id : String
  description : String
  category : String
  amount : Int
  eventId : String
  addedById : String
  createdAt : Nat := 0
deriving Repr, DecidableEq

/-- Row of the variant-B `managerInvites` table (shared/schema.ts lines
85-94): single-use token with a `used` boolean. -/
structure ManagerInvite where
  id : String := ""
  token : String
  eventId : String
  invitedBy : String
  email : String
  used : Bool := false
  expiresAt : Nat
  createdAt : Nat := 0
deriving Repr, DecidableEq

/-- Row of the `passwordResetTokens` table (shared/schema.ts lines
97-104). -/
structure PasswordResetToken where
  id : String := ""
  token : String
  userId : String
  used : Bool := false
  expiresAt : Nat
  createdAt : Nat := 0
deriving Repr, DecidableEq

/-- `DatabaseStorage.isEventManager` (server/storage.ts lines 586-592):
membership in the junction table; there is no role distinction. -/
def isEventManager (eventId userId : String) (managers : List EventManager) : Bool :=
  (managers.find? fun m => m.eventId = eventId ∧ m.userId = userId).isSome

/-- `DatabaseStorage.updateContributionStatus` (server/storage.ts lines
632-639): unconditional update of the row with the given id — sets the new
status (whatever the current one is), records `approvedById` even for
rejections, and bumps `updatedAt`.  No current-status check exists. -/
def statusUpdate (status approvedById : String) (now : Nat) (c : Contribution) :
    Contribution :=
  { c with status := status, approvedById := some approvedById, updatedAt := now }

/-- `DatabaseStorage.updateContributionStatus` applied to the table. -/
def updateContributionStatus (id status approvedById : String) (now : Nat)
    (db : List Contribution) : List Contribution :=
  db.map fun c => if c.id = id then statusUpdate status approvedById now c else c

/-- Return value of `DatabaseStorage.getEventStats` (server/storage.ts lines
657-701). -/
structure EventStats where
  totalCollected : Int
  totalContributors : Nat
  pendingRequests : Nat
  totalExpenses : Int
deriving Repr, DecidableEq

/-- `DatabaseStorage.getEventStats` (server/storage.ts lines 657-701):
`totalCollected` is `COALESCE(SUM(amount), 0)` over the event's approved
contributions, `totalContributors` is `COUNT(DISTINCT contributors.id)`
over the `contributors` table filtered by event — registered contributor
records, independent of any contribution's status — `pendingRequests` is
`COUNT(*)` over the event's pending contributions and `totalExpenses` is
the expense sum. -/
def getEventStats (eventId : String) (contribs : List Contribution)
    (contributorsDb : List Contributor) (exps : List Expense) : EventStats :=
  { totalCollected :=
      ((contribs.filter fun c => c.eventId = eventId ∧ c.status = "approved").map
        (·.amount)).sum
    totalContributors :=
      (((contributorsDb.filter fun c => c.eventId = eventId).map (·.id)).dedup).length
    pendingRequests :=
      (contribs.filter fun c => c.eventId = eventId ∧ c.status = "pending").length
    totalExpenses := ((exps.filter fun e => e.eventId = eventId).map (·.amount)).sum }

/-- `DatabaseStorage.createEvent` (server/storage.ts lines 557-569): the
access code is one `Math.random().toString(36).substring(2, 8).toUpperCase()`
draw (the `rand` argument), inserted without any collision check or retry —
a duplicate violates the `access_code` unique constraint and the insert
throws with nothing created.  On success the creator is added to
`eventManagers` via `addEventManager` (no role column exists to mark an
owner). -/
def createEvent (eventsDb : List Event) (managersDb : List EventManager)
    (title venue : String) (targetAmount : Option Int)
    (createdById rand newEventId : String) (now : Nat) :
    Except String (Event × List Event × List EventManager) :=
  let accessCode := rand
  if eventsDb.any fun e => e.accessCode = accessCode then
    .error "duplicate key value violates unique constraint"
  else
    let ev : Event :=
      { id := newEventId, title := title, venue := venue, accessCode := accessCode
        targetAmount := targetAmount, createdById := createdById
        createdAt := now, updatedAt := now }
    .ok (ev, eventsDb ++ [ev],
      managersDb ++ [{ eventId := newEventId, userId := createdById, createdAt := now }])

/-- `DatabaseStorage.getManagerInvite` (server/storage.ts lines 730-740):
select by token with `used = false` and `expiresAt > now` folded into the
query — an unknown, used, or expired token all yield the same `undefined`. -/
def getManagerInvite (token : String) (now : Nat) (invites : List ManagerInvite) :
    Option ManagerInvite :=
  invites.find? fun i => i.token = token ∧ i.used = false ∧ now < i.expiresAt

/-- `DatabaseStorage.useManagerInvite` (server/storage.ts lines 742-747):
set `used = true` on the row with the given token. -/
def useManagerInvite (token : String) (invites : List ManagerInvite) :
    List ManagerInvite :=
  invites.map fun i => if i.token = token then { i with used := true } else i

/-- Input accepted by the variant-B `insertContributorSchema`
(shared/schema.ts lines 200-205). -/
structure ContributorInput where
  name : String
  email : String
  phone : Option String := none
  eventId : String
deriving Repr, DecidableEq

/-- Input accepted by the variant-B `insertContributionSchema`
(shared/schema.ts lines 207-214): `amount` is only coerced to a string —
no positivity or range refinement of any kind. -/
structure ContributionInput where
  amount : Int
  message : Option String := none
  contributorId : Option String := none
  eventId : String
deriving Repr, DecidableEq

/-- Handler `POST /api/contributions` (src/unnamed/part_000 lines 317-361):
validates both payloads (which rejects nothing about the amount), 404s when
`contributorData.eventId` matches no event, reuses or creates the
`(eventId, email)` contributor, then inserts the contribution with
`contributorId` overridden and `status` left to its `pending` default.  The
contribution's own `eventId` comes from `contributionData`; if that id
matches no event the insert violates the foreign key and the catch-all
returns 400.  Returns the response plus the post-state of the contributors
and contributions tables. -/
def createContributionRoute (eventsDb : List Event)
    (contributorsDb : List Contributor) (contribs : List Contribution)
    (contributorData : ContributorInput) (contributionData : ContributionInput)
    (newContributorId newContributionId : String) (now : Nat) :
    RouteResult Contribution × List Contributor × List Contribution :=
  if eventsDb.any fun e => e.id = contributorData.eventId then
    let contributor :=
      match contributorsDb.find? fun c =>
          c.eventId = contributorData.eventId ∧ c.email = contributorData.email with
      | some c => c
      | none =>
        { id := newContributorId, name := contributorData.name
          email := contributorData.email, phone := contributorData.phone
          eventId := contributorData.eventId, createdAt := now }
    let contributorsAfter :=
      match contributorsDb.find? fun c =>
          c.eventId = contributorData.eventId ∧ c.email = contributorData.email with
      | some _ => contributorsDb
      | none => contributorsDb ++ [contributor]
    if eventsDb.any fun e => e.id = contributionData.eventId then
      let row : Contribution :=
        { id := newContributionId, amount := contributionData.amount
          message := contributionData.message, status := "pending"
          contributorId := contributor.id, eventId := contributionData.eventId
          approvedById := none, createdAt := now, updatedAt := now }
      (.ok row, contributorsAfter, contribs ++ [row])
    else
      (.err 400 "Failed to create contribution", contributorsAfter, contribs)
  else
    (.err 404 "Event not found", contributorsDb, contribs)

/-- Handler `PATCH /api/contributions/:contributionId` (src/unnamed/part_000
lines 363-402): 400 unless the requested status is `approved` or
`rejected`, 404 when the contribution is unknown, 403 when the session user
is not in `eventManagers` for the contribution's event — only then does it
call `updateContributionStatus`.  The current status of the contribution is
never consulted. -/
def patchContributionRoute (managersDb : List EventManager)
    (contribs : List Contribution) (sessionUserId contributionId status : String)
    (now : Nat) : RouteResult (Option Contribution) × List Contribution :=
  if status ≠ "approved" ∧ status ≠ "rejected" then
    (.err 400 "Invalid status", contribs)
  else
    match contribs.find? fun c => c.id = contributionId with
    | none => (.err 404 "Contribution not found", contribs)
    | some contribution =>
      if isEventManager contribution.eventId sessionUserId managersDb then
        let db := updateContributionStatus contributionId status sessionUserId now contribs
        (.ok (db.find? fun c => c.id = contributionId), db)
      else
        (.err 403 "Event manager access required", contribs)

/-- Tables touched by the invite-accept flow of part_000. -/
structure InviteDb where
  invites : List ManagerInvite
  eventManagers : List EventManager
deriving Repr, DecidableEq

/-- Handler `POST /api/invites/:token/accept` (src/unnamed/part_000 lines
540-564): `getManagerInvite` folds unknown, used and expired tokens into the
same `undefined`, answered with the one 404 message; on success the user is
added to `eventManagers` first (a duplicate `(eventId, userId)` primary key
makes that insert throw, caught as 500, with the invite left unused) and the
invite is marked used afterwards. -/
def acceptInviteRoute (db : InviteDb) (sessionUserId token : String) (now : Nat) :
    RouteResult Unit × InviteDb :=
  match getManagerInvite token now db.invites with
  | none => (.err 404 "Invalid or expired invite", db)
  | some invite =>
    if isEventManager invite.eventId sessionUserId db.eventManagers then
      (.err 500 "Failed to accept invite", db)
    else
      (.ok (), { invites := useManagerInvite token db.invites
                 eventManagers := db.eventManagers ++
                   [{ eventId := invite.eventId, userId := sessionUserId, createdAt := now }] })

/-- Sequential replay of `(userId, time)` acceptance attempts of one fixed
token through `POST /api/invites/:token/accept`. -/
def redeemAll (token : String) (attempts : List (String × Nat)) (db : InviteDb) :
    InviteDb :=
  attempts.foldl (fun s a => (acceptInviteRoute s a.1 token a.2).2) db

/-- Handler `POST /api/auth/forgot-password` (src/unnamed/part_000 lines
567-597).  `emailValid` is the outcome of the `passwordResetRequestSchema`
zod parse — a pure function of the request body, independent of any table;
a parse failure lands in the catch-all 500.  When the email matches no user
the generic message is returned at once; when it matches, a reset token row
is inserted and the email collaborator is invoked, whose failure is only
logged — the response is the same generic message either way. -/
def forgotPasswordRoute (emailValid : Bool) (usersDb : List User)
    (tokensDb : List PasswordResetToken) (email : String)
    (newTokenId tokenValue : String) (now : Nat) (emailSendOk : Bool) :
    RouteResult String × List PasswordResetToken :=
  if emailValid then
    match usersDb.find? fun u => u.email = email with
    | none =>
      (.ok "If an account with that email exists, a password reset link has been sent.",
        tokensDb)
    | some user =>
      let _ := emailSendOk
      (.ok "If an account with that email exists, a password reset link has been sent.",
        tokensDb ++ [{ id := newTokenId, token := tokenValue, userId := user.id
                       used := false, expiresAt := now + 60 * 60 * 1000, createdAt := now }])
  else
    (.err 500 "Failed to process password reset request", tokensDb)

end VarB

/-!
General helper lemmas shared by several claim theorems.
-/

/-- Filtering a `replicate` whose element satisfies the predicate keeps it. -/
theorem filter_replicate_of_pos {α : Type} (p : α → Bool) (a : α) (h : p a = true) :
    ∀ n : ℕ, (List.replicate n a).filter p = List.replicate n a := by
  intro n
  induction n with
  | zero => rfl
  | succ n ih => simp [List.replicate_succ, List.filter_cons, h, ih]

/-- A sum over a filtered list equals the sum of a pointwise `if`. -/
theorem sum_filter_eq_sum_ite {α : Type} (p : α → Prop) [DecidablePred p]
    (f : α → ℤ) (l : List α) :
    ((l.filter fun x => p x).map f).sum = (l.map fun x => if p x then f x else 0).sum := by
  induction l with
  | nil => rfl
  | cons a l ih =>
    by_cases h : p a <;> simp [List.filter_cons, h, ih]

/-- Replaying acceptance attempts against a single already-used invitation
changes nothing: every attempt hits the `usedAt` guard and throws, and the
route leaves the tables untouched on a throw. -/
theorem redeemAll_used_fixed (attempts : List (String × Nat))
    (inv : VarA.ManagerInvitation) (m : List VarA.EventManager) (w : Nat)
    (hU : inv.usedAt = some w) :
    VarA.redeemAll inv.inviteToken attempts ⟨[inv], m⟩ = ⟨[inv], m⟩ := by
  induction attempts with
  | nil => rfl
  | cons a rest ih =>
    have hstep : VarA.acceptInvitationRoute ⟨[inv], m⟩ a.1 inv.inviteToken a.2 =
        (.err 500 "Failed to accept invitation", ⟨[inv], m⟩) := by
      simp [VarA.acceptInvitationRoute, VarA.useManagerInvitation, List.find?, hU]
    simp only [VarA.redeemAll, List.foldl_cons] at ih ⊢
    rw [hstep]
    exact ih

/-- Over any sequence of acceptance attempts of one token against a ledger
holding exactly that invitation, at most one manager row is ever added:
the first successful redemption marks the invitation used and every later
attempt fails. -/
theorem redeemAll_singleton_bound (attempts : List (String × Nat))
    (inv : VarA.ManagerInvitation) (m : List VarA.EventManager) :
    (VarA.redeemAll inv.inviteToken attempts ⟨[inv], m⟩).eventManagers.length ≤
      m.length + 1 := by
  induction attempts generalizing inv m with
  | nil => simp [VarA.redeemAll]
  | cons a rest ih =>
    rcases hU : inv.usedAt with _ | w
    · by_cases hE : inv.expiresAt < a.2
      · have hstep : VarA.acceptInvitationRoute ⟨[inv], m⟩ a.1 inv.inviteToken a.2 =
            (.err 500 "Failed to accept invitation", ⟨[inv], m⟩) := by
          simp [VarA.acceptInvitationRoute, VarA.useManagerInvitation, List.find?, hU, hE]
        simp only [VarA.redeemAll, List.foldl_cons]
        rw [hstep]
        exact ih inv m
      · have hstep : VarA.acceptInvitationRoute ⟨[inv], m⟩ a.1 inv.inviteToken a.2 =
            (.ok (),
              ⟨[{ inv with usedAt := some a.2 }],
                m ++ [{ eventId := inv.eventId, userId := a.1, role := "co-manager"
                        invitedBy := some inv.invitedBy, createdAt := a.2 }]⟩) := by
          simp [VarA.acceptInvitationRoute, VarA.useManagerInvitation, List.find?, hU, hE]
        simp only [VarA.redeemAll, List.foldl_cons]
        rw [hstep]
        have habs := redeemAll_used_fixed rest { inv with usedAt := some a.2 }
          (m ++ [{ eventId := inv.eventId, userId := a.1, role := "co-manager"
                   invitedBy := some inv.invitedBy, createdAt := a.2 }]) a.2 rfl
        simp only [VarA.redeemAll] at habs
        simp [habs]
    · have habs := redeemAll_used_fixed (a :: rest) inv m w hU
      simp [habs]

/-!
Claim theorems.
-/

/-- C10: `rejectContribution` writes only `status` and `rejectionReason`.
Every other column of the updated row — amount, event id, contributor name
and phone, payment method and details, comments, `approvedBy`, `approvedAt`,
`createdAt`, the id itself — is carried over unchanged, rows whose id does
not match are untouched, and no column records which principal performed the
rejection (`rejectContribution` does not even receive a principal:
server/storage.ts lines 243-253 take only the contribution id and the
reason). -/
theorem c10_reject_frame (reason cid : String) (c : VarA.Contribution)
    (db : List VarA.Contribution) :
    (VarA.rejectUpdate reason c).amount = c.amount ∧
    (VarA.rejectUpdate reason c).eventId = c.eventId ∧
    (VarA.rejectUpdate reason c).contributorName = c.contributorName ∧
    (VarA.rejectUpdate reason c).contributorPhone = c.contributorPhone ∧
    (VarA.rejectUpdate reason c).paymentMethod = c.paymentMethod ∧
    (VarA.rejectUpdate reason c).paymentDetails = c.paymentDetails ∧
    (VarA.rejectUpdate reason c).comments = c.comments ∧
    (VarA.rejectUpdate reason c).approvedBy = c.approvedBy ∧
    (VarA.rejectUpdate reason c).approvedAt = c.approvedAt ∧
    (VarA.rejectUpdate reason c).createdAt = c.createdAt ∧
    (VarA.rejectUpdate reason c).id = c.id ∧
    (VarA.rejectUpdate reason c).status = "rejected" ∧
    (VarA.rejectUpdate reason c).rejectionReason = some reason ∧
    (VarA.rejectContribution cid reason db).length = db.length ∧
    VarA.rejectContribution cid reason (db.filter fun x => x.id ≠ cid) =
      db.filter fun x => x.id ≠ cid := by
  refine ⟨rfl, rfl, rfl, rfl, rfl, rfl, rfl, rfl, rfl, rfl, rfl, rfl, rfl, ?_, ?_⟩
  · simp [VarA.rejectContribution]
  · induction db with
    | nil => rfl
    | cons a db ih =>
      by_cases h : a.id = cid <;>
        simp_all [List.filter_cons, VarA.rejectContribution]

/-- C1 counterexample: the state machine has no terminal states.  A
contribution already in status `approved` (with an approver recorded) is
happily overwritten by a subsequent reject: `rejectContribution` succeeds
(it has no failure path at all — no `InvalidTransition` exists anywhere in
the code) and flips the status to `rejected`; symmetrically for the
variant-B `updateContributionStatus`. -/
theorem c1_terminal_counterexample :
    (VarA.rejectContribution "c1" "dup"
        [{ id := "c1", eventId := "e1", contributorName := "alice", amount := 100,
           status := "approved", approvedBy := some "m1", approvedAt := some 10 }] =
      [{ id := "c1", eventId := "e1", contributorName := "alice", amount := 100,
         status := "rejected", approvedBy := some "m1", approvedAt := some 10,
         rejectionReason := some "dup" }]) ∧
    (VarB.updateContributionStatus "k1" "rejected" "u9" 7
        [{ id := "k1", amount := 50, status := "approved", contributorId := "p1",
           eventId := "e2", approvedById := some "m2" }] =
      [{ id := "k1", amount := 50, status := "rejected", contributorId := "p1",
         eventId := "e2", approvedById := some "u9", updatedAt := 7 }]) ∧
    "rejected" ≠ "approved" := by
  refine ⟨?_, ?_, by decide⟩ <;> rfl

/-- C1 amended: `approveContribution`, `rejectContribution` and the
variant-B `updateContributionStatus` update the matched row unconditionally,
whatever its current status: a transition out of a terminal state succeeds
and overwrites the status (approve installs the new approver and approval
time, reject installs the new reason), and the fields the other transition
wrote are left stale rather than cleared — an approve after a reject keeps
the old rejection reason, a reject after an approve keeps the old approver.
No `InvalidTransition` failure exists in the code. -/
theorem c1_unconditional_update (c : VarA.Contribution) (cb : VarB.Contribution)
    (approver reason status uid : String) (now later : Nat) :
    (VarA.approveUpdate approver now c).status = "approved" ∧
    (VarA.rejectUpdate reason c).status = "rejected" ∧
    (VarA.rejectUpdate reason (VarA.approveUpdate approver now c)).status = "rejected" ∧
    (VarA.rejectUpdate reason (VarA.approveUpdate approver now c)).approvedBy =
      some approver ∧
    (VarA.approveUpdate approver later (VarA.rejectUpdate reason c)).status =
      "approved" ∧
    (VarA.approveUpdate approver later (VarA.rejectUpdate reason c)).rejectionReason =
      some reason ∧
    (VarB.statusUpdate status uid now cb).status = status ∧
    (VarB.statusUpdate status uid now cb).approvedById = some uid :=
  ⟨rfl, rfl, rfl, rfl, rfl, rfl, rfl, rfl⟩

/-- C9: the forgot-password handlers never reveal whether the target account
exists.  The part_000 handler returns the identical generic message and
status for any two user tables (in particular one containing the address and
one not), whatever the email-send outcome; the part_001 handler never
consults storage at all, so its response is likewise identical across any
two user tables. -/
theorem c9_no_account_enumeration (emailValid : Bool)
    (users1 users2 : List VarB.User) (tok1 tok2 : List VarB.PasswordResetToken)
    (email newTokenId tokenValue : String) (now1 now2 : Nat) (send1 send2 : Bool)
    (usersA1 usersA2 : List String) (emailA : Option String) (sendA : Bool) :
    (VarB.forgotPasswordRoute emailValid users1 tok1 email newTokenId tokenValue
        now1 send1).1 =
      (VarB.forgotPasswordRoute emailValid users2 tok2 email newTokenId tokenValue
        now2 send2).1 ∧
    VarA.forgotPasswordRoute usersA1 emailA sendA =
      VarA.forgotPasswordRoute usersA2 emailA sendA := by
  constructor
  · by_cases hv : emailValid
    · rcases h1 : users1.find? fun u => u.email = email with _ | u1 <;>
        rcases h2 : users2.find? fun u => u.email = email with _ | u2 <;>
        simp [VarB.forgotPasswordRoute, hv, h1, h2]
    · simp [VarB.forgotPasswordRoute, hv]
  · rfl

/-- C4 counterexample: the part_001 approve and reject routes perform no
authorization beyond authentication.  A principal `mallory`, a manager of no
event whatsoever (the handlers never consult the `eventManagers` table, as
their signatures show), approves a pending contribution: no `Forbidden`
response is produced, the call succeeds and the status changes. -/
theorem c4_no_authorization_counterexample :
    (VarA.approveContributionRoute
        [{ id := "c1", eventId := "e1", contributorName := "bob", amount := 100,
           status := "pending" }] "mallory" "c1" 99 =
      (.ok (some { id := "c1", eventId := "e1", contributorName := "bob", amount := 100,
                   status := "approved", approvedBy := some "mallory",
                   approvedAt := some 99 }),
        [{ id := "c1", eventId := "e1", contributorName := "bob", amount := 100,
           status := "approved", approvedBy := some "mallory", approvedAt := some 99 }])) ∧
    (VarA.rejectContributionRoute
        [{ id := "c1", eventId := "e1", contributorName := "bob", amount := 100,
           status := "pending" }] "c1" "nope" =
      (.ok (some { id := "c1", eventId := "e1", contributorName := "bob", amount := 100,
                   status := "rejected", rejectionReason := some "nope" }),
        [{ id := "c1", eventId := "e1", contributorName := "bob", amount := 100,
           status := "rejected", rejectionReason := some "nope" }])) := by
  exact ⟨rfl, rfl⟩

/-- C4 amended: only the part_000 `PATCH /api/contributions/:contributionId`
route enforces the manager check — a requesting principal not in
`eventManagers` for the contribution's event receives 403 and the
contributions table is returned unchanged.  The part_001
`PUT /api/contributions/:id/approve` and `/reject` routes perform no
manager-role check at all (see the counterexample), so any authenticated
principal can transition any contribution there. -/
theorem c4_patch_forbidden (managers : List VarB.EventManager)
    (contribs : List VarB.Contribution) (uid cid status : String) (now : Nat)
    (c : VarB.Contribution)
    (hstatus : status = "approved" ∨ status = "rejected")
    (hfind : (contribs.find? fun x => x.id = cid) = some c)
    (hmgr : VarB.isEventManager c.eventId uid managers = false) :
    VarB.patchContributionRoute managers contribs uid cid status now =
      (.err 403 "Event manager access required", contribs) := by
  rcases hstatus with h | h <;> subst h <;>
    simp [VarB.patchContributionRoute, hfind, hmgr]

/-- C4 witness: a concrete non-manager approval attempt through the
part_000 route is rejected with 403 and leaves the table unchanged. -/
theorem c4_patch_forbidden_witness :
    VarB.patchContributionRoute []
        [{ id := "c1", amount := 100, status := "pending", contributorId := "p1",
           eventId := "e1" }] "mallory" "c1" "approved" 0 =
      (.err 403 "Event manager access required",
        [{ id := "c1", amount := 100, status := "pending", contributorId := "p1",
           eventId := "e1" }]) :=
  c4_patch_forbidden []
    [{ id := "c1", amount := 100, status := "pending", contributorId := "p1",
       eventId := "e1" }] "mallory" "c1" "approved" 0
    { id := "c1", amount := 100, status := "pending", contributorId := "p1",
      eventId := "e1" }
    (Or.inl rfl) rfl rfl

/-- C3 counterexample: no amount validation exists anywhere on the
submission path.  A contribution of amount `-500` cents against an existing
event is accepted by the part_000 handler — the zod schemas only coerce the
amount to a string — a contributor record is created, and the stored
contribution has the negative amount and status `pending`.  No
`InvalidAmount` failure occurs and the contribution is stored. -/
theorem c3_invalid_amount_counterexample :
    VarB.createContributionRoute
        [{ id := "e1", title := "t", venue := "v", accessCode := "ABC123",
           createdById := "u1" }] [] []
        { name := "bob", email := "b@x", eventId := "e1" }
        { amount := -500, eventId := "e1" } "p1" "c1" 5 =
      (.ok { id := "c1", amount := -500, status := "pending", contributorId := "p1",
             eventId := "e1", createdAt := 5, updatedAt := 5 },
        [{ id := "p1", name := "bob", email := "b@x", eventId := "e1", createdAt := 5 }],
        [{ id := "c1", amount := -500, status := "pending", contributorId := "p1",
           eventId := "e1", createdAt := 5, updatedAt := 5 }]) ∧
    (-500 : ℤ) ≤ 0 := by
  exact ⟨rfl, by decide⟩

/-- C3 amended: the part_000 submission handler fails with 404 (`NotFound`)
and stores nothing when the event is absent, and otherwise stores the
contribution with initial status `pending` for any amount whatsoever —
including zero and negative amounts, since no `InvalidAmount` check exists
(see the counterexample).  The part_001 handler performs no event lookup of
its own (an absent event only surfaces through the foreign key as the
catch-all 500) and likewise stores any amount with status `pending`. -/
theorem c3_amended (eventsDb : List VarB.Event) (contributorsDb : List VarB.Contributor)
    (contribs : List VarB.Contribution) (cd : VarB.ContributorInput)
    (ctd : VarB.ContributionInput) (newContributorId newContributionId : String)
    (now : Nat) (eventsA : List VarA.Event) (contribsA : List VarA.Contribution)
    (inputA : VarA.ContributionInput) (newIdA : String) (nowA : Nat) :
    ((eventsDb.any fun e => e.id = cd.eventId) = false →
      VarB.createContributionRoute eventsDb contributorsDb contribs cd ctd
          newContributorId newContributionId now =
        (.err 404 "Event not found", contributorsDb, contribs)) ∧
    ((eventsDb.any fun e => e.id = cd.eventId) = true →
     (eventsDb.any fun e => e.id = ctd.eventId) = true →
      ∃ row : VarB.Contribution,
        (VarB.createContributionRoute eventsDb contributorsDb contribs cd ctd
            newContributorId newContributionId now).1 = .ok row ∧
        (VarB.createContributionRoute eventsDb contributorsDb contribs cd ctd
            newContributorId newContributionId now).2.2 = contribs ++ [row] ∧
        row.status = "pending" ∧ row.amount = ctd.amount) ∧
    ((eventsA.any fun e => e.id = inputA.eventId) = true →
      ∃ rowA : VarA.Contribution,
        (VarA.createContributionRoute eventsA contribsA inputA newIdA nowA).1 =
          .ok rowA ∧
        (VarA.createContributionRoute eventsA contribsA inputA newIdA nowA).2 =
          contribsA ++ [rowA] ∧
        rowA.status = "pending" ∧ rowA.amount = inputA.amount) := by
  refine ⟨fun h => ?_, fun h1 h2 => ?_, fun hA => ?_⟩
  · simp [VarB.createContributionRoute, h]
  · simp only [VarB.createContributionRoute, h1, h2, if_true]
    generalize List.find? _ contributorsDb = r
    rcases r with _ | c0
    · exact ⟨_, rfl, rfl, rfl, rfl⟩
    · exact ⟨_, rfl, rfl, rfl, rfl⟩
  · simp only [VarA.createContributionRoute, hA, if_true]
    exact ⟨_, rfl, rfl, rfl, rfl⟩

/-- C3 witness: with the event present, a concrete submission of 600.00 is
stored with status `pending` (spec §8 scenario), and a submission against an
absent event 404s. -/
theorem c3_amended_witness :
    (VarB.createContributionRoute
        [{ id := "e1", title := "t", venue := "v", accessCode := "ABC123",
           createdById := "u1" }] [] [] { name := "bob", email := "b@x", eventId := "e9" }
        { amount := 60000, eventId := "e9" } "p1" "c1" 5 =
      (.err 404 "Event not found", [], [])) ∧
    (∃ row : VarB.Contribution,
      (VarB.createContributionRoute
          [{ id := "e1", title := "t", venue := "v", accessCode := "ABC123",
             createdById := "u1" }] [] [] { name := "bob", email := "b@x", eventId := "e1" }
          { amount := 60000, eventId := "e1" } "p1" "c1" 5).1 = .ok row ∧
      (VarB.createContributionRoute
          [{ id := "e1", title := "t", venue := "v", accessCode := "ABC123",
             createdById := "u1" }] [] [] { name := "bob", email := "b@x", eventId := "e1" }
          { amount := 60000, eventId := "e1" } "p1" "c1" 5).2.2 = [] ++ [row] ∧
      row.status = "pending" ∧ row.amount = 60000) :=
  ⟨(c3_amended
      [{ id := "e1", title := "t", venue := "v", accessCode := "ABC123",
         createdById := "u1" }] [] [] { name := "bob", email := "b@x", eventId := "e9" }
      { amount := 60000, eventId := "e9" } "p1" "c1" 5 [] []
      ({ eventId := "x", contributorName := "n", amount := 1 }) "i" 0).1 rfl,
    (c3_amended
      [{ id := "e1", title := "t", venue := "v", accessCode := "ABC123",
         createdById := "u1" }] [] [] { name := "bob", email := "b@x", eventId := "e1" }
      { amount := 60000, eventId := "e1" } "p1" "c1" 5 [] []
      ({ eventId := "x", contributorName := "n", amount := 1 }) "i" 0).2.1 rfl rfl⟩

/-- C8 counterexample: `getEventStatistics` reports as `contributorsCount`
the `count` column of the approved-contributions query — the number of
approved contribution rows, not of distinct contributors.  Two approved
contributions from the same contributor `alice` yield `contributorsCount =
2`, while the count of distinct contributors with at least one approved
contribution is 1 (as is the count of distinct contributor identities
appearing at all). -/
theorem c8_duplicate_contributor_counterexample :
    (VarA.getEventStatistics "e1"
        [{ id := "a", eventId := "e1", contributorName := "alice", amount := 100,
           status := "approved" },
         { id := "b", eventId := "e1", contributorName := "alice", amount := 50,
           status := "approved" }] []).contributorsCount = 2 ∧
    ((([{ id := "a", eventId := "e1", contributorName := "alice", amount := 100,
          status := "approved" },
        { id := "b", eventId := "e1", contributorName := "alice", amount := 50,
          status := "approved" }] :
          List VarA.Contribution).filter fun c =>
            c.eventId = "e1" ∧ c.status = "approved").map
        (·.contributorName)).dedup.length = 1 ∧
    (2 : ℕ) ≠ 1 := by
  exact ⟨rfl, rfl, by decide⟩

/-- C8 amended: the variant-A `getEventStatistics` returns as
`contributorsCount` the number of approved contributions of the event, so a
second approved contribution from the same contributor increments it (each
approved row counts, duplicates included); the variant-B `getEventStats`
returns as `totalContributors` the number of distinct contributor records
registered for the event — independent of the contributions table entirely,
so in particular independent of any approval. -/
theorem c8_amended (e : String) (contribs : List VarA.Contribution)
    (c : VarA.Contribution) (exps : List VarA.Expense)
    (contribsB contribsB2 : List VarB.Contribution) (cdb : List VarB.Contributor)
    (expsB : List VarB.Expense) :
    (VarA.getEventStatistics e contribs exps).contributorsCount =
      contribs.countP (fun x => decide (x.eventId = e ∧ x.status = "approved")) ∧
    (c.eventId = e → c.status = "approved" →
      (VarA.getEventStatistics e (c :: contribs) exps).contributorsCount =
        (VarA.getEventStatistics e contribs exps).contributorsCount + 1) ∧
    (VarB.getEventStats e contribsB cdb expsB).totalContributors =
      ((cdb.filter fun x => x.eventId = e).map (·.id)).toFinset.card ∧
    (VarB.getEventStats e contribsB cdb expsB).totalContributors =
      (VarB.getEventStats e contribsB2 cdb expsB).totalContributors := by
  refine ⟨?_, fun h1 h2 => ?_, ?_, rfl⟩
  · simp [VarA.getEventStatistics, List.countP_eq_length_filter]
  · simp [VarA.getEventStatistics, List.filter_cons, h1, h2]
  · simp [VarB.getEventStats, List.card_toFinset]

/-- C8 witness: adding a second approved contribution by the same
contributor to a one-contribution ledger raises `contributorsCount` from 1
to 2. -/
theorem c8_amended_witness :
    (VarA.getEventStatistics "e1"
        ({ id := "b", eventId := "e1", contributorName := "alice", amount := 50,
           status := "approved" } ::
          [{ id := "a", eventId := "e1", contributorName := "alice", amount := 100,
             status := "approved" }]) []).contributorsCount =
      (VarA.getEventStatistics "e1"
        [{ id := "a", eventId := "e1", contributorName := "alice", amount := 100,
           status := "approved" }] []).contributorsCount + 1 :=
  (c8_amended "e1"
      [{ id := "a", eventId := "e1", contributorName := "alice", amount := 100,
         status := "approved" }]
      { id := "b", eventId := "e1", contributorName := "alice", amount := 50,
        status := "approved" } [] [] [] [] []).2.1 rfl rfl

/-- C2: both statistics reads return as `totalCollected` exactly the sum of
the amounts of the event's `approved` contributions: adding a `rejected` or
`pending` contribution leaves `totalCollected` unchanged, adding an
`approved` one for the event adds exactly its amount, and `pendingRequests`
is the number of the event's `pending` contributions.  All sums are over
exact integers (cents): the SQL `SUM` of `decimal(10,2)` columns is exact,
so there is no floating drift in these two fields. -/
theorem c2_total_collected (e : String) (contribs : List VarA.Contribution)
    (c : VarA.Contribution) (exps : List VarA.Expense)
    (contribsB : List VarB.Contribution) (cb : VarB.Contribution)
    (cdb : List VarB.Contributor) (expsB : List VarB.Expense) :
    (VarA.getEventStatistics e contribs exps).totalCollected =
      (contribs.map fun x =>
        if x.eventId = e ∧ x.status = "approved" then x.amount else 0).sum ∧
    (VarA.getEventStatistics e contribs exps).pendingRequests =
      contribs.countP (fun x => decide (x.eventId = e ∧ x.status = "pending")) ∧
    (c.status = "rejected" ∨ c.status = "pending" →
      (VarA.getEventStatistics e (c :: contribs) exps).totalCollected =
        (VarA.getEventStatistics e contribs exps).totalCollected) ∧
    (c.eventId = e → c.status = "approved" →
      (VarA.getEventStatistics e (c :: contribs) exps).totalCollected =
        c.amount + (VarA.getEventStatistics e contribs exps).totalCollected) ∧
    (VarB.getEventStats e contribsB cdb expsB).totalCollected =
      (contribsB.map fun x =>
        if x.eventId = e ∧ x.status = "approved" then x.amount else 0).sum ∧
    (cb.status = "rejected" ∨ cb.status = "pending" →
      (VarB.getEventStats e (cb :: contribsB) cdb expsB).totalCollected =
        (VarB.getEventStats e contribsB cdb expsB).totalCollected) := by
  refine ⟨?_, ?_, fun h => ?_, fun h1 h2 => ?_, ?_, fun h => ?_⟩
  · simpa [VarA.getEventStatistics] using
      sum_filter_eq_sum_ite (fun x : VarA.Contribution =>
        x.eventId = e ∧ x.status = "approved") (·.amount) contribs
  · simp [VarA.getEventStatistics, List.countP_eq_length_filter]
  · rcases h with h | h <;> simp [VarA.getEventStatistics, List.filter_cons, h]
  · simp [VarA.getEventStatistics, List.filter_cons, h1, h2]
  · simpa [VarB.getEventStats] using
      sum_filter_eq_sum_ite (fun x : VarB.Contribution =>
        x.eventId = e ∧ x.status = "approved") (·.amount) contribsB
  · rcases h with h | h <;> simp [VarB.getEventStats, List.filter_cons, h]

/-- C2 witness: approving the spec §8 scenario — one approved contribution
of 600.00, one pending of 100.00, one rejected of 40.00 — yields
`totalCollected = 60000` cents and `pendingRequests = 1`; the rejected and
pending rows contribute nothing. -/
theorem c2_total_collected_witness :
    (VarA.getEventStatistics "e1"
        ({ id := "r", eventId := "e1", contributorName := "carol", amount := 4000,
           status := "rejected", rejectionReason := some "duplicate" } ::
          [{ id := "a", eventId := "e1", contributorName := "alice", amount := 60000,
             status := "approved" },
           { id := "p", eventId := "e1", contributorName := "bob", amount := 10000,
             status := "pending" }]) []).totalCollected =
      (VarA.getEventStatistics "e1"
        [{ id := "a", eventId := "e1", contributorName := "alice", amount := 60000,
           status := "approved" },
         { id := "p", eventId := "e1", contributorName := "bob", amount := 10000,
           status := "pending" }] []).totalCollected ∧
    (VarA.getEventStatistics "e1"
        [{ id := "a", eventId := "e1", contributorName := "alice", amount := 60000,
           status := "approved" },
         { id := "p", eventId := "e1", contributorName := "bob", amount := 10000,
           status := "pending" }] []).totalCollected = 60000 ∧
    (VarA.getEventStatistics "e1"
        [{ id := "a", eventId := "e1", contributorName := "alice", amount := 60000,
           status := "approved" },
         { id := "p", eventId := "e1", contributorName := "bob", amount := 10000,
           status := "pending" }] []).pendingRequests = 1 :=
  ⟨(c2_total_collected "e1"
      [{ id := "a", eventId := "e1", contributorName := "alice", amount := 60000,
         status := "approved" },
       { id := "p", eventId := "e1", contributorName := "bob", amount := 10000,
         status := "pending" }]
      { id := "r", eventId := "e1", contributorName := "carol", amount := 4000,
        status := "rejected", rejectionReason := some "duplicate" } [] []
      ({ id := "z", amount := 1, contributorId := "q", eventId := "e" }) [] []).2.2.1
    (Or.inl rfl), rfl, rfl⟩

/-- C6 counterexample: no `AlreadyUsed`, `Expired` or `NotFound`
distinction exists.  Redeeming an already-used token, redeeming an unknown
token, and redeeming an expired token all produce the one identical error —
`useManagerInvitation` throws the same string for all three causes and the
variant-B accept route answers all three with the same 404 — so the second
redemption of a used token does not fail with a distinguishable
`AlreadyUsed`. -/
theorem c6_generic_error_counterexample :
    (VarA.useManagerInvitation "t" "u2" 10
        ⟨[{ eventId := "e1", email := "x", inviteToken := "t", invitedBy := "m1",
            expiresAt := 1000, usedAt := some 5 }], []⟩ =
      .error "Invalid or expired invitation") ∧
    (VarA.useManagerInvitation "zzz" "u2" 10
        ⟨[{ eventId := "e1", email := "x", inviteToken := "t", invitedBy := "m1",
            expiresAt := 1000, usedAt := some 5 }], []⟩ =
      .error "Invalid or expired invitation") ∧
    (VarA.useManagerInvitation "t" "u2" 10
        ⟨[{ eventId := "e1", email := "x", inviteToken := "t", invitedBy := "m1",
            expiresAt := 3, usedAt := none }], []⟩ =
      .error "Invalid or expired invitation") ∧
    ((VarB.acceptInviteRoute
        ⟨[{ token := "t", eventId := "e1", invitedBy := "m1", email := "x",
            used := true, expiresAt := 1000 }], []⟩ "u2" "t" 10).1 =
      .err 404 "Invalid or expired invite") ∧
    ((VarB.acceptInviteRoute
        ⟨[{ token := "t", eventId := "e1", invitedBy := "m1", email := "x",
            used := false, expiresAt := 3 }], []⟩ "u2" "t" 10).1 =
      .err 404 "Invalid or expired invite") ∧
    ((VarB.acceptInviteRoute ⟨[], []⟩ "u2" "t" 10).1 =
      .err 404 "Invalid or expired invite") := by
  exact ⟨rfl, rfl, rfl, rfl, rfl, rfl⟩

/-- C6 amended: redemption of an unknown, used or expired token fails (with
the one generic `Invalid or expired invitation` error rather than distinct
`NotFound` / `AlreadyUsed` / `Expired` codes) and grants nothing; a
successful redemption marks `usedAt = now` and appends exactly one
`co-manager` role row; and over any sequence of redemption attempts of one
token, at most one manager row is granted — once used, every further
attempt fails and changes nothing (the check and the mark are two separate
statements, so this holds for the sequential interleaving modelled here,
not atomically). -/
theorem c6_amended (inv inv2 : VarA.ManagerInvitation) (u t2 : String)
    (now now2 w : Nat) (m0 : List VarA.EventManager)
    (attempts : List (String × Nat))
    (hU : inv.usedAt = none) (hE : ¬inv.expiresAt < now) :
    (VarA.useManagerInvitation inv.inviteToken u now ⟨[inv], m0⟩ =
      .ok ⟨[{ inv with usedAt := some now }],
        m0 ++ [{ eventId := inv.eventId, userId := u, role := "co-manager"
                 invitedBy := some inv.invitedBy, createdAt := now }]⟩) ∧
    (t2 ≠ inv.inviteToken →
      VarA.useManagerInvitation t2 u now ⟨[inv], m0⟩ =
        .error "Invalid or expired invitation") ∧
    (inv2.usedAt = some w →
      VarA.useManagerInvitation inv2.inviteToken u now2 ⟨[inv2], m0⟩ =
        .error "Invalid or expired invitation") ∧
    (inv2.usedAt = none → inv2.expiresAt < now2 →
      VarA.useManagerInvitation inv2.inviteToken u now2 ⟨[inv2], m0⟩ =
        .error "Invalid or expired invitation") ∧
    (VarA.redeemAll inv.inviteToken attempts ⟨[inv], m0⟩).eventManagers.length ≤
      m0.length + 1 ∧
    VarA.redeemAll inv.inviteToken attempts
        ⟨[{ inv with usedAt := some now }], m0⟩ =
      ⟨[{ inv with usedAt := some now }], m0⟩ := by
  refine ⟨?_, fun hne => ?_, fun hu => ?_, fun hu hexp => ?_, ?_, ?_⟩
  · simp [VarA.useManagerInvitation, List.find?, hU, hE]
  · simp [VarA.useManagerInvitation, List.find?, Ne.symm hne]
  · simp [VarA.useManagerInvitation, List.find?, hu]
  · simp [VarA.useManagerInvitation, List.find?, hu, hexp]
  · exact redeemAll_singleton_bound attempts inv m0
  · exact redeemAll_used_fixed attempts { inv with usedAt := some now } m0 now rfl

/-- C6 witness: a concrete fresh invitation is redeemed successfully
(usedAt set, one co-manager row appended), an unknown token fails with the
generic error, and two further attempts after the success grant nothing. -/
theorem c6_amended_witness :
    (VarA.useManagerInvitation "t" "u1" 10
        ⟨[{ eventId := "e1", email := "x", inviteToken := "t", invitedBy := "m1",
            expiresAt := 1000, usedAt := none }], []⟩ =
      .ok ⟨[{ eventId := "e1", email := "x", inviteToken := "t", invitedBy := "m1",
              expiresAt := 1000, usedAt := some 10 }],
        [{ eventId := "e1", userId := "u1", role := "co-manager",
           invitedBy := some "m1", createdAt := 10 }]⟩) ∧
    (VarA.useManagerInvitation "zzz" "u1" 10
        ⟨[{ eventId := "e1", email := "x", inviteToken := "t", invitedBy := "m1",
            expiresAt := 1000, usedAt := none }], []⟩ =
      .error "Invalid or expired invitation") ∧
    (VarA.redeemAll "t" [("u1", 10), ("u2", 11), ("u3", 12)]
        ⟨[{ eventId := "e1", email := "x", inviteToken := "t", invitedBy := "m1",
            expiresAt := 1000, usedAt := none }], []⟩).eventManagers.length ≤
      0 + 1 := by
  have H := c6_amended
    { eventId := "e1", email := "x", inviteToken := "t", invitedBy := "m1",
      expiresAt := 1000, usedAt := none }
    { eventId := "e1", email := "x", inviteToken := "t", invitedBy := "m1",
      expiresAt := 1000, usedAt := none } "u1" "zzz" 10 0 0 []
    [("u1", 10), ("u2", 11), ("u3", 12)] rfl (by decide)
  exact ⟨H.1, H.2.1 (by decide), H.2.2.2.2.1⟩

/-- C7 counterexample: access-code generation is one bare `Math.random`
draw with no collision check and no retry.  When the draw collides with an
existing event's code, the insert violates the unique constraint and the
creation fails outright — nothing is created and no fresh code is tried —
in both the variant-B storage `createEvent` and the variant-A
`POST /api/events` route. -/
theorem c7_no_retry_counterexample :
    (VarB.createEvent [] [] "t1" "v1" none "u1" "QQQQQQ" "e1" 5 =
      .ok ({ id := "e1", title := "t1", venue := "v1", accessCode := "QQQQQQ",
             createdById := "u1", createdAt := 5, updatedAt := 5 },
        [{ id := "e1", title := "t1", venue := "v1", accessCode := "QQQQQQ",
           createdById := "u1", createdAt := 5, updatedAt := 5 }],
        [{ eventId := "e1", userId := "u1", createdAt := 5 }])) ∧
    (VarB.createEvent
        [{ id := "e1", title := "t1", venue := "v1", accessCode := "QQQQQQ",
           createdById := "u1", createdAt := 5, updatedAt := 5 }]
        [{ eventId := "e1", userId := "u1", createdAt := 5 }]
        "t2" "v2" none "u2" "QQQQQQ" "e2" 6 =
      .error "duplicate key value violates unique constraint") ∧
    ((VarA.createEventRoute
        [{ id := "e1", title := "t1", venue := "v1", accessCode := "QQQQQQ",
           createdBy := "u1" }] [] "t2" "v2" none "QQQQQQ" "u2" "e2" "m2" 6).1 =
      .err 500 "Failed to create event") := by
  exact ⟨rfl, rfl, rfl⟩

/-- C7 amended: `createEvent` draws the access code once from `Math.random`
with no collision check and no retry; a colliding draw makes the creation
fail with the unique-constraint error and creates nothing.  Because the
constraint rejects duplicates, any two events present after successful
creations still carry pairwise-distinct access codes, and each successful
creation registers the creator in `eventManagers` as part of the same
operation — with role `owner` in the variant-A schema, and with no role at
all in the variant-B schema, whose manager table has no role column. -/
theorem c7_amended (eventsDb : List VarB.Event) (managersDb : List VarB.EventManager)
    (title venue : String) (targetAmount : Option Int)
    (createdById rand newEventId : String) (now : Nat)
    (eventsA : List VarA.Event) (managersA : List VarA.EventManager)
    (titleA venueA : String) (codeInput : Option String)
    (randA uid idA midA : String) (nowA : Nat)
    (hdist : eventsDb.Pairwise fun a b => a.accessCode ≠ b.accessCode) :
    (∀ ev events2 managers2,
      VarB.createEvent eventsDb managersDb title venue targetAmount createdById
          rand newEventId now = .ok (ev, events2, managers2) →
      events2.Pairwise (fun a b => a.accessCode ≠ b.accessCode) ∧
      managers2 = managersDb ++
        [{ eventId := newEventId, userId := createdById, createdAt := now }]) ∧
    ((eventsDb.any fun e => e.accessCode = rand) = true →
      VarB.createEvent eventsDb managersDb title venue targetAmount createdById
          rand newEventId now =
        .error "duplicate key value violates unique constraint") ∧
    ((eventsA.any fun e => e.accessCode = codeInput.getD randA) = false →
      ∃ ev : VarA.Event,
        VarA.createEventRoute eventsA managersA titleA venueA codeInput randA uid
            idA midA nowA =
          (.ok ev, eventsA ++ [ev],
            managersA ++ [{ id := midA, eventId := idA, userId := uid,
                            role := "owner", createdAt := nowA }])) := by
  refine ⟨fun ev events2 managers2 hok => ?_, fun h => ?_, fun h => ?_⟩
  · rcases hcol : eventsDb.any fun e => e.accessCode = rand with _ | _
    · simp only [VarB.createEvent, hcol, Bool.false_eq_true, if_false] at hok
      obtain ⟨rfl, rfl, rfl⟩ := hok
      refine ⟨?_, rfl⟩
      rw [List.pairwise_append]
      refine ⟨hdist, List.pairwise_singleton _ _, ?_⟩
      intro a ha b hb
      simp only [List.mem_singleton] at hb
      subst hb
      simp only [List.any_eq_false, decide_eq_true_eq] at hcol
      exact hcol a ha
    · simp [VarB.createEvent, hcol] at hok
  · simp [VarB.createEvent, h]
  · simp only [VarA.createEventRoute, h, Bool.false_eq_true, if_false]
    exact ⟨_, rfl⟩

/-- C7 witness: a successful concrete creation from an empty ledger keeps
codes distinct and registers the creator as `owner` (variant A) and as a
manager row (variant B); a colliding concrete draw fails with the
unique-constraint error. -/
theorem c7_amended_witness :
    (∃ ev : VarA.Event,
      VarA.createEventRoute [] [] "t1" "v1" none "QQQQQQ" "u1" "e1" "m1" 5 =
        (.ok ev, [] ++ [ev],
          [] ++ [{ id := "m1", eventId := "e1", userId := "u1",
                   role := "owner", createdAt := 5 }])) ∧
    (VarB.createEvent
        [{ id := "e1", title := "t1", venue := "v1", accessCode := "QQQQQQ",
           createdById := "u1" }] [] "t2" "v2" none "u2" "QQQQQQ" "e2" 6 =
      .error "duplicate key value violates unique constraint") := by
  have H := c7_amended
    [{ id := "e1", title := "t1", venue := "v1", accessCode := "QQQQQQ",
       createdById := "u1" }] [] "t2" "v2" none "u2" "QQQQQQ" "e2" 6
    [] [] "t1" "v1" none "QQQQQQ" "u1" "e1" "m1" 5 (List.pairwise_singleton _ _)
  exact ⟨H.2.2 rfl, H.2.1 rfl⟩

/-!
Error analysis of the binary64 model used by `remainingFundsFloat`.
-/

/-- Rounding to the nearest integer moves a rational by at most one half. -/
theorem rne_err (x : ℚ) : |(rne x : ℚ) - x| ≤ 1 / 2 := by
  have h0 : ((⌊x⌋ : ℤ) : ℚ) ≤ x := Int.floor_le x
  have h1 : x < ⌊x⌋ + 1 := Int.lt_floor_add_one x
  simp only [rne]
  split_ifs with hA hB hC <;> rw [abs_le] <;> constructor <;> push_cast <;> linarith

/-- Bracketing of a positive fraction `A / B` of naturals between the
consecutive powers of two selected by the `ilog2Q` branch formula. -/
theorem ilog2Q_spec_aux (A B : ℕ) (hA : 0 < A) (hB : 0 < B) :
    (2 : ℚ) ^ (if B ≤ A then ((Nat.log 2 (A / B) : ℕ) : ℤ)
        else -((Nat.log 2 ((B - 1) / A) + 1 : ℕ) : ℤ)) ≤ (A : ℚ) / (B : ℚ) ∧
      (A : ℚ) / (B : ℚ) < (2 : ℚ) ^ ((if B ≤ A then ((Nat.log 2 (A / B) : ℕ) : ℤ)
        else -((Nat.log 2 ((B - 1) / A) + 1 : ℕ) : ℤ)) + 1) := by
  have hbq : (0 : ℚ) < (B : ℚ) := by exact_mod_cast hB
  by_cases hba : B ≤ A
  · rw [if_pos hba]
    have hn0 : A / B ≠ 0 := Nat.one_le_iff_ne_zero.1 ((Nat.one_le_div_iff hB).2 hba)
    have hlow : 2 ^ Nat.log 2 (A / B) ≤ A / B := Nat.pow_log_le_self 2 hn0
    have hhigh : A / B < 2 ^ (Nat.log 2 (A / B) + 1) :=
      Nat.lt_pow_succ_log_self (by norm_num) _
    constructor
    · rw [zpow_natCast]
      calc ((2 : ℚ)) ^ Nat.log 2 (A / B)
          = ((2 ^ Nat.log 2 (A / B) : ℕ) : ℚ) := by push_cast; ring
        _ ≤ ((A / B : ℕ) : ℚ) := by exact_mod_cast hlow
        _ ≤ (A : ℚ) / (B : ℚ) := Nat.cast_div_le
    · have h3 : (A : ℚ) / (B : ℚ) < ((A / B + 1 : ℕ) : ℚ) := by
        rw [div_lt_iff₀ hbq]
        have h4 : A < (A / B) * B + B := Nat.lt_div_mul_add hB
        calc (A : ℚ) < (((A / B) * B + B : ℕ) : ℚ) := by exact_mod_cast h4
          _ = ((A / B + 1 : ℕ) : ℚ) * (B : ℚ) := by push_cast; ring
      have h5 : ((A / B + 1 : ℕ) : ℚ) ≤ ((2 ^ (Nat.log 2 (A / B) + 1) : ℕ) : ℚ) := by
        exact_mod_cast Nat.succ_le_of_lt hhigh
      calc (A : ℚ) / (B : ℚ) < ((A / B + 1 : ℕ) : ℚ) := h3
        _ ≤ ((2 ^ (Nat.log 2 (A / B) + 1) : ℕ) : ℚ) := h5
        _ = (2 : ℚ) ^ ((Nat.log 2 (A / B) : ℤ) + 1) := by
            rw [show ((Nat.log 2 (A / B) : ℤ) + 1) =
                ((Nat.log 2 (A / B) + 1 : ℕ) : ℤ) by push_cast; ring, zpow_natCast]
            push_cast
            ring
  · rw [if_neg hba]
    push_neg at hba
    have hab1 : A ≤ B - 1 := by omega
    have hquot1 : 1 ≤ (B - 1) / A := (Nat.one_le_div_iff hA).2 hab1
    have hlow : 2 ^ Nat.log 2 ((B - 1) / A) ≤ (B - 1) / A :=
      Nat.pow_log_le_self 2 (Nat.one_le_iff_ne_zero.1 hquot1)
    have hhigh : (B - 1) / A < 2 ^ (Nat.log 2 ((B - 1) / A) + 1) :=
      Nat.lt_pow_succ_log_self (by norm_num) _
    have hb_le : B ≤ A * 2 ^ (Nat.log 2 ((B - 1) / A) + 1) := by
      have h6 := (Nat.div_lt_iff_lt_mul hA).1 hhigh
      have h7 : B - 1 < A * 2 ^ (Nat.log 2 ((B - 1) / A) + 1) := by
        rw [Nat.mul_comm]; exact h6
      omega
    have ha_lt : A * 2 ^ Nat.log 2 ((B - 1) / A) < B := by
      have h8 : A * 2 ^ Nat.log 2 ((B - 1) / A) ≤ A * ((B - 1) / A) :=
        Nat.mul_le_mul_left _ hlow
      have h9 : ((B - 1) / A) * A ≤ B - 1 := Nat.div_mul_le_self _ _
      have h10 : A * ((B - 1) / A) ≤ B - 1 := by rw [Nat.mul_comm]; exact h9
      omega
    constructor
    · rw [zpow_neg, zpow_natCast]
      have hXpos : (0 : ℚ) < ((2 : ℚ)) ^ (Nat.log 2 ((B - 1) / A) + 1) := by positivity
      rw [inv_eq_one_div, div_le_div_iff₀ hXpos hbq]
      have h11 : (B : ℚ) ≤ (A : ℚ) * ((2 ^ (Nat.log 2 ((B - 1) / A) + 1) : ℕ) : ℚ) := by
        exact_mod_cast hb_le
      push_cast at h11 ⊢
      linarith
    · rw [show (-((Nat.log 2 ((B - 1) / A) + 1 : ℕ) : ℤ) + 1) =
          -((Nat.log 2 ((B - 1) / A) : ℕ) : ℤ) by push_cast; ring,
        zpow_neg, zpow_natCast]
      have hXpos : (0 : ℚ) < ((2 : ℚ)) ^ Nat.log 2 ((B - 1) / A) := by positivity
      rw [inv_eq_one_div, div_lt_div_iff₀ hbq hXpos]
      have h12 : (A : ℚ) * ((2 ^ Nat.log 2 ((B - 1) / A) : ℕ) : ℚ) < (B : ℚ) := by
        exact_mod_cast ha_lt
      push_cast at h12 ⊢
      linarith

/-- Correctness of `ilog2Q`: it brackets every positive rational between
consecutive powers of two. -/
theorem ilog2Q_spec (q : ℚ) (hq : 0 < q) :
    (2 : ℚ) ^ ilog2Q q ≤ q ∧ q < (2 : ℚ) ^ (ilog2Q q + 1) := by
  have hnum0 : (0 : ℤ) < q.num := Rat.num_pos.2 hq
  have hb0 : 0 < q.den := q.pos
  have ha0 : 0 < q.num.natAbs := Int.natAbs_pos.2 (ne_of_gt hnum0)
  have hqa : ((q.num.natAbs : ℕ) : ℚ) / ((q.den : ℕ) : ℚ) = q := by
    have h1 : ((q.num.natAbs : ℕ) : ℤ) = q.num := Int.natAbs_of_nonneg hnum0.le
    have h2 : (((q.num.natAbs : ℕ) : ℤ) : ℚ) = ((q.num : ℤ) : ℚ) := by rw [h1]
    have h3 : ((q.num.natAbs : ℕ) : ℚ) = (q.num : ℚ) := by
      rw [← h2]
      push_cast
      rw [abs_of_nonneg (show (0 : ℚ) ≤ (q.num : ℚ) from by exact_mod_cast hnum0.le)]
      exact (Int.cast_natCast (R := ℚ) q.num.natAbs).symm.trans
        (congrArg (fun z : ℤ => (z : ℚ)) h1)
    rw [h3, Rat.num_div_den]
  have haux := ilog2Q_spec_aux q.num.natAbs q.den ha0 hb0
  rw [hqa] at haux
  rw [ilog2Q]
  exact haux

/-- The bracketing characterises `ilog2Q` uniquely. -/
theorem ilog2Q_unique (q : ℚ) (z : ℤ) (hq : 0 < q) (h1 : (2 : ℚ) ^ z ≤ q)
    (h2 : q < (2 : ℚ) ^ (z + 1)) : ilog2Q q = z := by
  obtain ⟨l1, l2⟩ := ilog2Q_spec q hq
  by_contra hne
  rcases lt_or_gt_of_ne hne with hlt | hgt
  · have h3 : (2 : ℚ) ^ (ilog2Q q + 1) ≤ (2 : ℚ) ^ z :=
      zpow_le_zpow_right₀ (by norm_num) (by omega)
    linarith
  · have h3 : (2 : ℚ) ^ (z + 1) ≤ (2 : ℚ) ^ ilog2Q q :=
      zpow_le_zpow_right₀ (by norm_num) (by omega)
    linarith

/-- Rounding to a 53-bit significand: the error is at most half an ulp. -/
theorem flround_err (q : ℚ) (hq : q ≠ 0) :
    |flround q - q| ≤ (2 : ℚ) ^ (ilog2Q |q| - 53) := by
  have hpow : (0 : ℚ) < (2 : ℚ) ^ (ilog2Q |q| - 52) := zpow_pos (by norm_num) _
  have hkey : flround q - q =
      ((rne (q / (2 : ℚ) ^ (ilog2Q |q| - 52)) : ℚ) -
          q / (2 : ℚ) ^ (ilog2Q |q| - 52)) *
        (2 : ℚ) ^ (ilog2Q |q| - 52) := by
    rw [flround, if_neg hq, sub_mul, div_mul_cancel₀ _ (ne_of_gt hpow)]
  rw [hkey, abs_mul, abs_of_pos hpow]
  have h2 := rne_err (q / (2 : ℚ) ^ (ilog2Q |q| - 52))
  have h3 := mul_le_mul_of_nonneg_right h2 hpow.le
  have h4 : (1 / 2) * (2 : ℚ) ^ (ilog2Q |q| - 52) = (2 : ℚ) ^ (ilog2Q |q| - 53) := by
    rw [show ilog2Q |q| - 52 = (ilog2Q |q| - 53) + 1 by ring,
      zpow_add_one₀ (by norm_num : (2 : ℚ) ≠ 0)]
    ring
  linarith

/-- Magnitude-based form of the rounding error bound: below `2 ^ c` the
binary64 rounding error is below `2 ^ (c - 54)`. -/
theorem flround_err_of_lt (q : ℚ) (c : ℤ) (h : |q| < (2 : ℚ) ^ c) :
    |flround q - q| ≤ (2 : ℚ) ^ (c - 54) := by
  by_cases hq : q = 0
  · subst hq
    simp only [flround, if_pos rfl, sub_zero, abs_zero]
    positivity
  · have habs : 0 < |q| := abs_pos.2 hq
    have hile : ilog2Q |q| ≤ c - 1 := by
      by_contra hgt
      push_neg at hgt
      have h1 : (2 : ℚ) ^ c ≤ (2 : ℚ) ^ ilog2Q |q| :=
        zpow_le_zpow_right₀ (by norm_num) (by omega)
      have h2 := (ilog2Q_spec |q| habs).1
      linarith
    calc |flround q - q| ≤ (2 : ℚ) ^ (ilog2Q |q| - 53) := flround_err q hq
      _ ≤ (2 : ℚ) ^ (c - 54) := zpow_le_zpow_right₀ (by norm_num) (by omega)

/-- `toFixed(2)` recovers an exact number of cents from any value within
half a cent of it (in fact within 1/200 strictly). -/
theorem toFixed2_eq (x : ℚ) (n : ℤ) (h : |x - (n : ℚ) / 100| < 1 / 200) :
    toFixed2 x = n := by
  have h1 := abs_lt.1 h
  rw [toFixed2]
  split_ifs with hneg
  · have hf : ⌊(-x) * 100 + 1 / 2⌋ = -n := by
      rw [Int.floor_eq_iff]
      constructor
      · push_cast
        linarith [h1.1, h1.2]
      · push_cast
        linarith [h1.1, h1.2]
    rw [hf, neg_neg]
  · have hf : ⌊x * 100 + 1 / 2⌋ = n := by
      rw [Int.floor_eq_iff]
      constructor
      · linarith [h1.1, h1.2]
      · linarith [h1.1, h1.2]
    exact hf

/-- Bound used twice below: the triangle inequality for three terms. -/
theorem abs_add_sub_le (x y z : ℚ) : |x + y - z| ≤ |x| + |y| + |z| := by
  calc |x + y - z| = |x + (y + -z)| := by ring_nf
    _ ≤ |x| + |y + -z| := abs_add _ _
    _ ≤ |x| + (|y| + |-z|) := by linarith [abs_add y (-z)]
    _ = |x| + |y| + |z| := by rw [abs_neg]; ring

/-- Exactness region of the float pipeline: as long as both totals are below
`2 ^ 42` cents (about 44 billion dollars), `parseFloat`, the binary64
subtraction and `toFixed(2)` together return the exact difference — the
accumulated rounding error stays at `2 ^ -16`, far below half a cent.  (The
counterexample for C5 shows this fails for totals around `2 ^ 46` dollars.) -/
theorem remainingFundsFloat_exact (nc ne : ℤ) (hc : |nc| < 2 ^ 42)
    (he : |ne| < 2 ^ 42) :
    remainingFundsFloat nc ne = nc - ne := by
  have hc100 : |(nc : ℚ) / 100| < (2 : ℚ) ^ 42 / 100 := by
    rw [abs_div]
    have h1 : |(nc : ℚ)| < (2 : ℚ) ^ 42 := by
      rw [← Int.cast_abs]
      exact_mod_cast hc
    rw [show |(100 : ℚ)| = 100 by norm_num]
    linarith
  have he100 : |(ne : ℚ) / 100| < (2 : ℚ) ^ 42 / 100 := by
    rw [abs_div]
    have h1 : |(ne : ℚ)| < (2 : ℚ) ^ 42 := by
      rw [← Int.cast_abs]
      exact_mod_cast he
    rw [show |(100 : ℚ)| = 100 by norm_num]
    linarith
  have hc36 : |(nc : ℚ) / 100| < (2 : ℚ) ^ (36 : ℤ) := by
    calc |(nc : ℚ) / 100| < (2 : ℚ) ^ 42 / 100 := hc100
      _ < (2 : ℚ) ^ (36 : ℤ) := by norm_num
  have he36 : |(ne : ℚ) / 100| < (2 : ℚ) ^ (36 : ℤ) := by
    calc |(ne : ℚ) / 100| < (2 : ℚ) ^ 42 / 100 := he100
      _ < (2 : ℚ) ^ (36 : ℤ) := by norm_num
  have ea := flround_err_of_lt ((nc : ℚ) / 100) 36 hc36
  have eb := flround_err_of_lt ((ne : ℚ) / 100) 36 he36
  have htri1 : |flround ((nc : ℚ) / 100)| ≤
      |(nc : ℚ) / 100| + (2 : ℚ) ^ ((36 : ℤ) - 54) := by
    have := abs_add (flround ((nc : ℚ) / 100) - (nc : ℚ) / 100) ((nc : ℚ) / 100)
    simp only [sub_add_cancel] at this
    linarith
  have htri2 : |flround ((ne : ℚ) / 100)| ≤
      |(ne : ℚ) / 100| + (2 : ℚ) ^ ((36 : ℤ) - 54) := by
    have := abs_add (flround ((ne : ℚ) / 100) - (ne : ℚ) / 100) ((ne : ℚ) / 100)
    simp only [sub_add_cancel] at this
    linarith
  have hdabs : |flround ((nc : ℚ) / 100) - flround ((ne : ℚ) / 100)| ≤
      |flround ((nc : ℚ) / 100)| + |flround ((ne : ℚ) / 100)| := by
    calc |flround ((nc : ℚ) / 100) - flround ((ne : ℚ) / 100)|
        = |flround ((nc : ℚ) / 100) + -flround ((ne : ℚ) / 100)| := by
          rw [sub_eq_add_neg]
      _ ≤ |flround ((nc : ℚ) / 100)| + |-flround ((ne : ℚ) / 100)| := abs_add _ _
      _ = |flround ((nc : ℚ) / 100)| + |flround ((ne : ℚ) / 100)| := by rw [abs_neg]
  have hd : |flround ((nc : ℚ) / 100) - flround ((ne : ℚ) / 100)| <
      (2 : ℚ) ^ (37 : ℤ) := by
    have hnum : (2 : ℚ) ^ 42 / 100 + (2 : ℚ) ^ ((36 : ℤ) - 54) +
        ((2 : ℚ) ^ 42 / 100 + (2 : ℚ) ^ ((36 : ℤ) - 54)) < (2 : ℚ) ^ (37 : ℤ) := by
      norm_num
    linarith
  have ed := flround_err_of_lt
    (flround ((nc : ℚ) / 100) - flround ((ne : ℚ) / 100)) 37 hd
  have hsplit :
      flround (flround ((nc : ℚ) / 100) - flround ((ne : ℚ) / 100)) -
          ((nc : ℚ) / 100 - (ne : ℚ) / 100) =
        (flround (flround ((nc : ℚ) / 100) - flround ((ne : ℚ) / 100)) -
            (flround ((nc : ℚ) / 100) - flround ((ne : ℚ) / 100))) +
          (flround ((nc : ℚ) / 100) - (nc : ℚ) / 100) -
          (flround ((ne : ℚ) / 100) - (ne : ℚ) / 100) := by
    ring
  have htot : |flround (flround ((nc : ℚ) / 100) - flround ((ne : ℚ) / 100)) -
      ((nc : ℚ) / 100 - (ne : ℚ) / 100)| ≤
        (2 : ℚ) ^ ((37 : ℤ) - 54) + (2 : ℚ) ^ ((36 : ℤ) - 54) +
          (2 : ℚ) ^ ((36 : ℤ) - 54) := by
    rw [hsplit]
    have h1 := abs_add_sub_le
      (flround (flround ((nc : ℚ) / 100) - flround ((ne : ℚ) / 100)) -
        (flround ((nc : ℚ) / 100) - flround ((ne : ℚ) / 100)))
      (flround ((nc : ℚ) / 100) - (nc : ℚ) / 100)
      (flround ((ne : ℚ) / 100) - (ne : ℚ) / 100)
    linarith
  have hfin : |flround (flround ((nc : ℚ) / 100) - flround ((ne : ℚ) / 100)) -
      ((nc - ne : ℤ) : ℚ) / 100| < 1 / 200 := by
    have hcast : ((nc - ne : ℤ) : ℚ) / 100 = (nc : ℚ) / 100 - (ne : ℚ) / 100 := by
      push_cast
      ring
    rw [hcast]
    have hnum : (2 : ℚ) ^ ((37 : ℤ) - 54) + (2 : ℚ) ^ ((36 : ℤ) - 54) +
        (2 : ℚ) ^ ((36 : ℤ) - 54) < 1 / 200 := by norm_num
    linarith
  exact toFixed2_eq _ _ hfin

/-!
Concrete evaluation of the float pipeline at the C5 counterexample total of
70368744177664.01 dollars (7036874417766401 cents, just above `2 ^ 46`
dollars, where binary64 values are spaced `1 / 64` apart: parsing rounds
.01 up to .015625, and `toFixed(2)` then prints .02).
-/

/-- Exponent of the parsed counterexample total. -/
theorem ilog2Q_eval_a : ilog2Q |(7036874417766401 : ℚ) / 100| = 46 := by
  rw [abs_of_pos (by norm_num : (0 : ℚ) < (7036874417766401 : ℚ) / 100)]
  exact ilog2Q_unique _ 46 (by norm_num) (by norm_num) (by norm_num)

/-- Significand rounding of the parsed counterexample total. -/
theorem rne_eval_a :
    rne ((7036874417766401 : ℚ) / 100 / (2 : ℚ) ^ ((46 : ℤ) - 52)) =
      4503599627370497 := by
  rw [show (7036874417766401 : ℚ) / 100 / (2 : ℚ) ^ ((46 : ℤ) - 52) =
      112589990684262416 / 25 by norm_num]
  have hf : ⌊(112589990684262416 : ℚ) / 25⌋ = 4503599627370496 := by
    rw [Int.floor_eq_iff]
    constructor
    · norm_num
    · norm_num
  simp only [rne, hf]
  norm_num

/-- `parseFloat("70368744177664.01")` returns `70368744177664.015625`. -/
theorem flround_eval_a :
    flround ((7036874417766401 : ℚ) / 100) = (4503599627370497 : ℚ) / 64 := by
  rw [flround, if_neg (by norm_num : ¬((7036874417766401 : ℚ) / 100 = 0)),
    ilog2Q_eval_a, rne_eval_a]
  norm_num

/-- Exponent of the parsed value, which is already a binary64 value. -/
theorem ilog2Q_eval_b : ilog2Q |(4503599627370497 : ℚ) / 64| = 46 := by
  rw [abs_of_pos (by norm_num : (0 : ℚ) < (4503599627370497 : ℚ) / 64)]
  exact ilog2Q_unique _ 46 (by norm_num) (by norm_num) (by norm_num)

/-- Rounding a value already representable in 53 bits is the identity. -/
theorem rne_eval_b :
    rne ((4503599627370497 : ℚ) / 64 / (2 : ℚ) ^ ((46 : ℤ) - 52)) =
      4503599627370497 := by
  rw [show (4503599627370497 : ℚ) / 64 / (2 : ℚ) ^ ((46 : ℤ) - 52) =
      (4503599627370497 : ℚ) by norm_num]
  have hf : ⌊(4503599627370497 : ℚ)⌋ = 4503599627370497 := by
    rw [Int.floor_eq_iff]
    constructor
    · norm_num
    · norm_num
  simp only [rne, hf]
  norm_num

/-- The binary64 subtraction step does not move the counterexample value. -/
theorem flround_eval_b :
    flround ((4503599627370497 : ℚ) / 64) = (4503599627370497 : ℚ) / 64 := by
  rw [flround, if_neg (by norm_num : ¬((4503599627370497 : ℚ) / 64 = 0)),
    ilog2Q_eval_b, rne_eval_b]
  norm_num

/-- `toFixed(2)` prints the double `70368744177664.015625` as
`70368744177664.02` — one cent above the exact ledger total. -/
theorem toFixed2_eval : toFixed2 ((4503599627370497 : ℚ) / 64) = 7036874417766402 := by
  rw [toFixed2, if_neg (by norm_num : ¬((4503599627370497 : ℚ) / 64 < 0)),
    show (4503599627370497 : ℚ) / 64 * 100 + 1 / 2 = 112589990684262433 / 16 by
      norm_num]
  rw [Int.floor_eq_iff]
  constructor
  · norm_num
  · norm_num

/-- Parsing the string `"0"` yields exactly zero. -/
theorem flround_zero : flround 0 = 0 := by
  rw [flround, if_pos rfl]

/-- The full pipeline at the counterexample ledger totals: the code returns
7036874417766402 cents where the exact difference is 7036874417766401. -/
theorem remainingFundsFloat_eval :
    remainingFundsFloat 7036874417766401 0 = 7036874417766402 := by
  rw [remainingFundsFloat,
    show ((0 : ℤ) : ℚ) / 100 = 0 by norm_num,
    show ((7036874417766401 : ℤ) : ℚ) / 100 = (7036874417766401 : ℚ) / 100 by
      norm_num,
    flround_zero, sub_zero, flround_eval_a, flround_eval_b, toFixed2_eval]

/-- C5 counterexample: `remainingFunds` is not computed with exact
fixed-point arithmetic — server/storage.ts line 405 computes
`(parseFloat(totalCollected) - parseFloat(totalExpenses)).toFixed(2)` in
binary64 floating point, and for large enough ledger states the result is
wrong by a cent.  At a ledger whose approved contributions sum to
70368744177664.01 dollars (703687 contributions of the `decimal(10,2)`
maximum 99999999.99 plus one of 44184700.88, a legal state since the SQL
`SUM` is unbounded) with no expenses, the statistics read returns
`remainingFunds = 70368744177664.02` while
`totalCollected - totalExpenses = 70368744177664.01` exactly. -/
theorem c5_float_counterexample :
    (VarA.getEventStatistics "e1"
        (List.replicate 703687
            { id := "big", eventId := "e1", contributorName := "a",
              amount := 9999999999, status := "approved" } ++
          [{ id := "r", eventId := "e1", contributorName := "a",
             amount := 4418470088, status := "approved" }]) []).remainingFunds =
      7036874417766402 ∧
    (VarA.getEventStatistics "e1"
        (List.replicate 703687
            { id := "big", eventId := "e1", contributorName := "a",
              amount := 9999999999, status := "approved" } ++
          [{ id := "r", eventId := "e1", contributorName := "a",
             amount := 4418470088, status := "approved" }]) []).totalCollected =
      7036874417766401 ∧
    (VarA.getEventStatistics "e1"
        (List.replicate 703687
            { id := "big", eventId := "e1", contributorName := "a",
              amount := 9999999999, status := "approved" } ++
          [{ id := "r", eventId := "e1", contributorName := "a",
             amount := 4418470088, status := "approved" }]) []).totalExpenses = 0 ∧
    (7036874417766402 : ℤ) ≠ 7036874417766401 - 0 := by
  have hsum :
      (((List.replicate 703687
            ({ id := "big", eventId := "e1", contributorName := "a",
               amount := 9999999999, status := "approved" } : VarA.Contribution) ++
          ([{ id := "r", eventId := "e1", contributorName := "a",
              amount := 4418470088, status := "approved" }] :
            List VarA.Contribution)).filter fun c =>
          c.eventId = "e1" ∧ c.status = "approved").map (·.amount)).sum =
        (7036874417766401 : ℤ) := by
    have hsingle : (([{ id := "r", eventId := "e1", contributorName := "a",
                        amount := 4418470088, status := "approved" }] :
          List VarA.Contribution).filter fun c =>
        c.eventId = "e1" ∧ c.status = "approved") =
      [{ id := "r", eventId := "e1", contributorName := "a",
         amount := 4418470088, status := "approved" }] := rfl
    rw [List.filter_append, filter_replicate_of_pos _ _ (by decide) 703687, hsingle,
      List.map_append, List.map_replicate, List.sum_append, List.sum_replicate]
    simp only [List.map_cons, List.map_nil, List.sum_cons, List.sum_nil]
    norm_num [nsmul_eq_mul]
  refine ⟨?_, ?_, rfl, by decide⟩
  · have hRF : (VarA.getEventStatistics "e1"
        (List.replicate 703687
            { id := "big", eventId := "e1", contributorName := "a",
              amount := 9999999999, status := "approved" } ++
          [{ id := "r", eventId := "e1", contributorName := "a",
             amount := 4418470088, status := "approved" }]) []).remainingFunds =
        remainingFundsFloat 7036874417766401 0 := by
      simp only [VarA.getEventStatistics]
      rw [hsum]
      rfl
    exact hRF.trans remainingFundsFloat_eval
  · simp only [VarA.getEventStatistics]
    exact hsum

/-- C5 amended: `remainingFunds` equals `totalCollected - totalExpenses`
whenever both totals are below `2 ^ 42` cents (about 44 billion dollars) —
within that region the binary64 `parseFloat`/subtract/`toFixed(2)` pipeline
of server/storage.ts line 405 is value-exact — and the result is not
clamped: it is negative whenever expenses exceed collected funds.  The
computation is, however, floating point, not fixed-point: outside that
region it can be off by a cent (see the counterexample). -/
theorem c5_amended (e : String) (cs : List VarA.Contribution)
    (xs : List VarA.Expense)
    (hc : |(VarA.getEventStatistics e cs xs).totalCollected| < 2 ^ 42)
    (he : |(VarA.getEventStatistics e cs xs).totalExpenses| < 2 ^ 42) :
    (VarA.getEventStatistics e cs xs).remainingFunds =
      (VarA.getEventStatistics e cs xs).totalCollected -
        (VarA.getEventStatistics e cs xs).totalExpenses := by
  have h : (VarA.getEventStatistics e cs xs).remainingFunds =
      remainingFundsFloat (VarA.getEventStatistics e cs xs).totalCollected
        (VarA.getEventStatistics e cs xs).totalExpenses := rfl
  rw [h]
  exact remainingFundsFloat_exact _ _ hc he

/-- C5 witness: at a small ledger — one approved contribution of 600.00,
one expense of 800.00 — the statistics read returns `remainingFunds =
totalCollected - totalExpenses = -20000` cents: negative and unclamped. -/
theorem c5_amended_witness :
    (VarA.getEventStatistics "e1"
        [{ id := "a", eventId := "e1", contributorName := "alice",
           amount := 60000, status := "approved" }]
        [{ id := "x", eventId := "e1", title := "venue hire", amount := 80000,
           addedBy := "m1" }]).remainingFunds =
      (VarA.getEventStatistics "e1"
        [{ id := "a", eventId := "e1", contributorName := "alice",
           amount := 60000, status := "approved" }]
        [{ id := "x", eventId := "e1", title := "venue hire", amount := 80000,
           addedBy := "m1" }]).totalCollected -
        (VarA.getEventStatistics "e1"
          [{ id := "a", eventId := "e1", contributorName := "alice",
             amount := 60000, status := "approved" }]
          [{ id := "x", eventId := "e1", title := "venue hire", amount := 80000,
             addedBy := "m1" }]).totalExpenses ∧
    (VarA.getEventStatistics "e1"
        [{ id := "a", eventId := "e1", contributorName := "alice",
           amount := 60000, status := "approved" }]
        [{ id := "x", eventId := "e1", title := "venue hire", amount := 80000,
           addedBy := "m1" }]).totalCollected = 60000 ∧
    (VarA.getEventStatistics "e1"
        [{ id := "a", eventId := "e1", contributorName := "alice",
           amount := 60000, status := "approved" }]
        [{ id := "x", eventId := "e1", title := "venue hire", amount := 80000,
           addedBy := "m1" }]).totalExpenses = 80000 ∧
    (60000 : ℤ) - 80000 < 0 :=
  ⟨c5_amended "e1"
      [{ id := "a", eventId := "e1", contributorName := "alice",
         amount := 60000, status := "approved" }]
      [{ id := "x", eventId := "e1", title := "venue hire", amount := 80000,
         addedBy := "m1" }] (by decide) (by decide),
    rfl, rfl, by decide⟩

end EventFund
